import Mathlib

/-!
Verification of the crocus web-scraping pipeline (iShares / Vanguard ETF
harvesters) against its natural-language specification.

The development shallowly embeds the three Python modules
`scripts/webscrapers/base_scraper.py`, `scripts/webscrapers/ishares.py` and
`scripts/webscrapers/vanguard.py`.  External collaborators (the selenium
rendering engine, the HTTP client, the filesystem) are modelled as explicit
oracles / state values:

* a rendered element is an `Option` value (`none` = the element never becomes
  present/clickable within the `WebDriverWait` timeout);
* `WebDriverWait.until` raises selenium's `TimeoutException` when the timeout
  elapses; a `NoSuchElementException` raised inside the polled condition is
  swallowed by the wait (it is in the default `ignored_exceptions` list), so
  the wait itself never raises `NoSuchElementException`;
* Python `dict`s are association lists with in-place update (an assignment to
  an existing key keeps its position and replaces the value; a fresh key is
  appended), which is exactly insertion-ordered `dict` semantics;
* the products JSON file is an `Option Json` cell, the download directory a
  list of `(file name, mtime)` pairs, the logger an accumulated event list.
-/

namespace Crocus

/-- Events emitted through the classwide logger (`logger.info` / `logger.error`
in the Python sources). -/
inductive LogEvent where
  | info (msg : String)
  | error (msg : String)
deriving DecidableEq

/-- Whether a log event was emitted at error level. -/
def LogEvent.isError : LogEvent → Bool
  | LogEvent.info _ => false
  | LogEvent.error _ => true

/-- Python exception classes that the embedded code can raise:
selenium's `TimeoutException` and `NoSuchElementException`, and the built-in
`ValueError`, `AttributeError` and `UnboundLocalError`. -/
inductive Exn where
  | timeoutException
  | noSuchElementException
  | valueError
  | attributeError
  | unboundLocalError
deriving DecidableEq

/-- Python `dict` lookup (`d[k]` / `d.get(k)`) over the association-list model. -/
def dictLookup : List (String × α) → String → Option α
  | [], _ => none
  | (k, v) :: rest, key => if k = key then some v else dictLookup rest key

/-- Python `dict` assignment `d[key] = val`: an existing key keeps its position
and gets the new value, a fresh key is appended at the end. -/
def dictInsert (key : String) (val : α) : List (String × α) → List (String × α)
  | [] => [(key, val)]
  | (k, v) :: rest =>
    if k = key then (key, val) :: rest else (k, v) :: dictInsert key val rest

/-- The keys of a Python `dict`, in insertion order (`d.keys()`). -/
def dictKeys (l : List (String × α)) : List String := l.map Prod.fst

/-- Python's `str.split(sep)` for a one-character separator, on character
lists.  `split` on the empty string yields `[""]` and adjacent separators
yield empty fields, as in Python. -/
def splitOnChar (sep : Char) : List Char → List (List Char)
  | [] => [[]]
  | c :: rest =>
    let r := splitOnChar sep rest
    if c = sep then [] :: r
    else
      match r with
      | [] => [[c]]
      | g :: gs => (c :: g) :: gs

/-- Python's `str.split(sep)` for a one-character separator. -/
def pySplit (s : String) (sep : Char) : List String :=
  (splitOnChar sep s.data).map (fun l => String.mk l)

/-- `sep.join(parts)`: interleave a separator between string parts. -/
def joinWith (sep : String) : List String → String
  | [] => ""
  | [s] => s
  | s :: rest => s ++ sep ++ joinWith sep rest

/-- Big-endian decimal digit characters of `n`, with explicit recursion fuel
(`fuel > number of digits` suffices; we always call it with `fuel = n + 1`). -/
def digitChars : Nat → Nat → List Char
  | 0, _ => []
  | fuel + 1, n =>
    if n < 10 then [Nat.digitChar n]
    else digitChars fuel (n / 10) ++ [Nat.digitChar (n % 10)]

/-- Python's `str(i)` for a non-negative integer: its decimal representation. -/
def natStr (n : Nat) : String := String.mk (digitChars (n + 1) n)

/-- Numeric value of a decimal digit character. -/
def charDigit (c : Char) : Nat := c.toNat - 48

/-- Read a big-endian decimal digit string back into a number. -/
def readDigitsNat (cs : List Char) : Nat :=
  cs.foldl (fun acc c => acc * 10 + charDigit c) 0

/-!
## Locator / wait contract and interaction primitives (`base_scraper.py`)

`BaseScraper._get_located_element` and `BaseScraper._click_button_by_xpath`
wrap `WebDriverWait.until`.  The rendered page is abstracted by the `Option`
argument: `some payload` when the awaited element eventually becomes
present/clickable (with `payload` the text/attribute the caller will read),
`none` when it never does within the timeout.
-/

/-- `self.wait.until(EC.presence_of_element_located(...))`: yields the element,
or raises selenium's `TimeoutException` when it never becomes present. -/
def wait_until_presence (element : Option α) : Except Exn α :=
  match element with
  | some payload => Except.ok payload
  | none => Except.error Exn.timeoutException

/-- `self.wait.until(EC.element_to_be_clickable(...))`: succeeds, or raises
selenium's `TimeoutException` when the element never becomes clickable. -/
def wait_until_clickable (clickable : Bool) : Except Exn Unit :=
  if clickable then Except.ok () else Except.error Exn.timeoutException

/-- The `try ... except NoSuchElementException` wrapper around the wait in
`BaseScraper._get_located_element` (lines 142-163).  Only
`NoSuchElementException` is caught; in that (dead) branch the function logs
and then falls through to `return web_element` with the local variable
unbound, i.e. raises `UnboundLocalError`.  Every other exception propagates. -/
def after_wait : Except Exn α → List LogEvent × Except Exn α
  | Except.error Exn.noSuchElementException =>
    ([LogEvent.error "Element not found"], Except.error Exn.unboundLocalError)
  | r => ([], r)

/-- `BaseScraper._get_located_element(element_id, locator)` (lines 136-163):
dispatch on the locator kind (`match locator: case "classname" / "xpath" /
case _: log + raise ValueError`), then wait for presence of the element. -/
def get_located_element (element : Option α) (locator : String) :
    List LogEvent × Except Exn α :=
  match locator with
  | "classname" => after_wait (wait_until_presence element)
  | "xpath" => after_wait (wait_until_presence element)
  | _ =>
    ([LogEvent.error ("Locator not implemented: " ++ locator)],
     Except.error Exn.valueError)

/-- `BaseScraper._click_button_by_xpath(xpath, btn_name)` (lines 125-134):
logs, waits for the button to be clickable and clicks it; the
`except NoSuchElementException` clause logs and returns normally, every other
exception (in particular the wait's `TimeoutException`) propagates. -/
def click_button_by_xpath (clickable : Bool) (btn_name : String) :
    List LogEvent × Except Exn Unit :=
  let logs := [LogEvent.info ("Clicking the " ++ btn_name ++ " button")]
  match wait_until_clickable clickable with
  | Except.ok _ => (logs, Except.ok ())
  | Except.error Exn.noSuchElementException =>
    (logs ++ [LogEvent.error ("No " ++ btn_name ++ " button found")],
     Except.ok ())
  | Except.error e => (logs, Except.error e)

/-!
## JSON document model and the catalog store (`base_scraper.py` lines 165-178)

`json.dump` / `json.load` (the Python standard library) are the external
serialization collaborator; the file is modelled at the JSON-value level as an
`Option Json` cell, `none` meaning the file does not exist.  `json.load`
rebuilds ordered dictionaries key by key, which `decodeFields` mirrors.
-/

/-- JSON values as produced by the scrapers: objects, strings and `null`. -/
inductive Json where
  | null
  | str (s : String)
  | obj (fields : List (String × Json))

/-- `BaseScraper._write_products_json` (lines 165-170): `open(path, "w")`
truncates whatever was there and `json.dump` writes the whole mapping, so the
new contents replace any prior snapshot regardless of the previous state. -/
def write_products_json (products : Json) (_fs : Option Json) : Option Json :=
  some products

/-- `BaseScraper._read_products_json` (lines 172-178): `json.load` of the
snapshot file contents. -/
def read_products_json (fs : Option Json) : Option Json := fs

/-!
## iShares catalog extraction (`ishares.py`)
-/

/-- One `<tr>` of the iShares listing table, as the fields
`_cycle_trough_tbody` reads from it: the type column `td[1]`, the `<th>` text
and its anchor's `href`, and the columns `td[2]`-`td[5]` and `td[7]`. -/
structure ISharesRow where
  fund_type : String
  th_text : String
  href : String
  currency : String
  hedged : String
  acc_distr : String
  ter : String
  date : String
deriving DecidableEq

/-- A provisional record as built by `ISharesScraper._cycle_trough_tbody`
(lines 79-87): listing-page fields plus the detail-page URL. -/
structure IntermediateRecord where
  name : String
  currency : String
  hedged : String
  acc_distr : String
  ter : String
  date : String
  product_page : String
deriving DecidableEq

/-- The dictionary value stored for one admitted listing row. -/
def intermediateOfRow (row : ISharesRow) : IntermediateRecord :=
  { name := row.th_text
    currency := row.currency
    hedged := row.hedged
    acc_distr := row.acc_distr
    ter := row.ter
    date := row.date
    product_page := row.href }

/-- The surrogate key `f"dummy_key_{i}"` of `_cycle_trough_tbody`. -/
def dummyKey (i : Nat) : String := "dummy_key_" ++ natStr i

/-- The row loop of `ISharesScraper._cycle_trough_tbody` (lines 56-88): skip
any row whose type column is not `"ETF"`, store every admitted row under
`dummy_key_{i}` and increment `i` only for admitted rows. -/
def cycle_trough_tbody_go :
    List ISharesRow → Nat → List (String × IntermediateRecord) →
    List (String × IntermediateRecord)
  | [], _, results => results
  | row :: rest, i, results =>
    if row.fund_type ≠ "ETF" then cycle_trough_tbody_go rest i results
    else
      cycle_trough_tbody_go rest (i + 1)
        (dictInsert (dummyKey i) (intermediateOfRow row) results)

/-- `ISharesScraper._cycle_trough_tbody` (lines 52-90): fold the rendered rows
into the provisional-record dictionary, starting from `results = {}`, `i = 0`. -/
def cycle_trough_tbody (trows : List ISharesRow) :
    List (String × IntermediateRecord) :=
  cycle_trough_tbody_go trows 0 []

/-!
## iShares record enrichment (`ishares.py` lines 97-162)
-/

/-- What one rendered iShares product detail page yields for the six elements
`_scrape_single_product_infos` locates, in source order: ISIN, price, ticker,
factsheet href, KID href, holdings-file href.  `none` = that element never
becomes present within the wait timeout. -/
structure ProductPage where
  isin : Option String
  price : Option String
  ticker : Option String
  factsheet : Option String
  kid : Option String
  holdings_file : Option String

/-- The dictionary returned by `_scrape_single_product_infos` (lines 130-137). -/
structure ScrapeInfos where
  isin : String
  ticker : String
  price : String
  factsheet : String
  kid : String
  holdings_file : String
deriving DecidableEq

/-- Sequencing of two logging, exception-raising steps: logs accumulate, an
exception short-circuits. -/
def wexBind (r : List LogEvent × Except Exn α)
    (f : α → List LogEvent × Except Exn β) : List LogEvent × Except Exn β :=
  match r with
  | (logs, Except.error e) => (logs, Except.error e)
  | (logs, Except.ok a) =>
    let rb := f a
    (logs ++ rb.1, rb.2)

/-- `ISharesScraper._scrape_single_product_infos(product_page)` (lines
97-137): navigate to the detail page (logging), then locate the six elements
in order, each via `_get_located_element` with the default `"xpath"` locator;
any failure propagates out of the method. -/
def scrape_single_product_infos (pg : ProductPage) (product_page : String) :
    List LogEvent × Except Exn ScrapeInfos :=
  wexBind ([LogEvent.info ("Opening web page: " ++ product_page)], Except.ok ())
    (fun _ =>
  wexBind (get_located_element pg.isin "xpath") (fun isin =>
  wexBind (get_located_element pg.price "xpath") (fun price =>
  wexBind (get_located_element pg.ticker "xpath") (fun ticker =>
  wexBind (get_located_element pg.factsheet "xpath") (fun factsheet =>
  wexBind (get_located_element pg.kid "xpath") (fun kid =>
  wexBind (get_located_element pg.holdings_file "xpath") (fun holdings =>
  ([], Except.ok
    { isin := isin, ticker := ticker, price := price, factsheet := factsheet,
      kid := kid, holdings_file := holdings }))))))))

/-- Python's `name.split("\n")[0]`. -/
def firstLine (s : String) : String := (pySplit s '\n').headD ""

/-- A canonical iShares record, with the exact fields written by
`_get_final_products_json` (lines 149-160); `fund_type` is always `None` in
the source (`null` once serialized). -/
structure FinalRecord where
  name : String
  fund_type : Option String
  currency : String
  ter : String
  price : String
  date : String
  factsheet : String
  kid : String
  product_page : String
  holdings_file : String
deriving DecidableEq

/-- The record value assigned to `final_json[additional_infos["isin"]]`. -/
def mkFinalRecord (inter : IntermediateRecord) (infos : ScrapeInfos) :
    FinalRecord :=
  { name := firstLine inter.name
    fund_type := none
    currency := inter.currency
    ter := inter.ter
    price := infos.price
    date := inter.date
    factsheet := infos.factsheet
    kid := infos.kid
    product_page := inter.product_page
    holdings_file := infos.holdings_file }

/-- The `for dummy_key in intermediate_json.keys()` loop of
`ISharesScraper._get_final_products_json` (lines 144-160): scrape each
provisional record's detail page and assign the merged record to
`final_json[isin]`; any exception raised while scraping propagates and aborts
the whole loop. -/
def get_final_products_json_go (pages : String → ProductPage) :
    List (String × IntermediateRecord) → List (String × FinalRecord) →
    List LogEvent → List LogEvent × Except Exn (List (String × FinalRecord))
  | [], final_json, logs => (logs, Except.ok final_json)
  | (_, inter) :: rest, final_json, logs =>
    match scrape_single_product_infos (pages inter.product_page)
        inter.product_page with
    | (slogs, Except.error e) => (logs ++ slogs, Except.error e)
    | (slogs, Except.ok infos) =>
      get_final_products_json_go pages rest
        (dictInsert infos.isin (mkFinalRecord inter infos) final_json)
        (logs ++ slogs)

/-- `ISharesScraper._get_final_products_json(intermediate_json)` (lines
139-162), with the rendered detail pages abstracted as the oracle `pages`. -/
def get_final_products_json (pages : String → ProductPage)
    (intermediate_json : List (String × IntermediateRecord)) :
    List LogEvent × Except Exn (List (String × FinalRecord)) :=
  get_final_products_json_go pages intermediate_json [] []

/-!
## URL query parsing (`urllib.parse` as used in `ishares.py` lines 181-182)

`urlparse(url).query` is the part of the URL after the first `?`, with the
fragment (everything from the first `#` on) removed first.  `parse_qs` splits
the query on `&`, splits each field at its first `=`, and drops fields with no
`=` or with an empty value (`keep_blank_values` is off).  Percent-decoding and
`+`-decoding are the identity on every URL the scraper handles and are not
modelled.
-/

/-- `urlparse(url).query`. -/
def urlQueryOf (url : String) : String :=
  let noFragment := (pySplit url '#').headD ""
  match pySplit noFragment '?' with
  | [] => ""
  | [_] => ""
  | _ :: rest => joinWith "?" rest

/-- The values `parse_qs(query).get(key, [])`: every `name=value` field of the
query whose name is `key` and whose value is non-empty, in order. -/
def parse_qs_values (query : String) (key : String) : List String :=
  (pySplit query '&').filterMap (fun name_value =>
    match pySplit name_value '=' with
    | [] => none
    | [_] => none
    | name :: rest =>
      let value := joinWith "=" rest
      if name = key ∧ value ≠ "" then some value else none)

/-- `parse_qs(urlparse(url).query).get("fileType", ["csv"])[0]` — the file
extension chosen in `ISharesScraper.download_product_files` (lines 181-182). -/
def file_extension_of (url : String) : String :=
  match parse_qs_values (urlQueryOf url) "fileType" with
  | [] => "csv"
  | v :: _ => v

/-!
## Direct-transfer file acquisition (`base_scraper.py` lines 180-191,
`ishares.py` lines 175-187)

The HTTP client is the oracle `http : String → Nat × String` giving the status
code and body for a GET of a URL; the provider's download directory is a
dictionary from file name to written content.
-/

/-- `BaseScraper._download_file_with_request(url, file_name)` (lines 180-191):
log, GET the URL, write the body to `file_name` on status 200, otherwise log
an error and write nothing.  No path raises. -/
def download_file_with_request (http : String → Nat × String)
    (url : String) (file_name : String)
    (st : List LogEvent × List (String × String)) :
    List LogEvent × List (String × String) :=
  let logs := st.1 ++ [LogEvent.info ("Downloading file from " ++ url)]
  let response := http url
  if response.1 = 200 then (logs, dictInsert file_name response.2 st.2)
  else
    (logs ++ [LogEvent.error ("Failed to download file: " ++ natStr response.1)],
     st.2)

/-- `ISharesScraper.download_product_files(products_dict)` (lines 175-187):
for every `(isin, product)` in order, derive the extension from the
`holdings_file` URL and fetch it into `{isin}.{extension}`. -/
def ishares_download_product_files (http : String → Nat × String)
    (products_dict : List (String × FinalRecord))
    (st : List LogEvent × List (String × String)) :
    List LogEvent × List (String × String) :=
  products_dict.foldl (fun st e =>
    let url := e.2.holdings_file
    let file_extension := file_extension_of url
    download_file_with_request http url (e.1 ++ "." ++ file_extension) st) st

/-!
## iShares pipeline wiring (`ishares.py` lines 164-198)
-/

/-- Encoding of one canonical record as the JSON object `json.dump` writes. -/
def encodeFinalRecord (r : FinalRecord) : Json :=
  Json.obj
    [("name", Json.str r.name),
     ("fund_type", match r.fund_type with
       | none => Json.null
       | some s => Json.str s),
     ("currency", Json.str r.currency),
     ("ter", Json.str r.ter),
     ("price", Json.str r.price),
     ("date", Json.str r.date),
     ("factsheet", Json.str r.factsheet),
     ("kid", Json.str r.kid),
     ("product_page", Json.str r.product_page),
     ("holdings_file", Json.str r.holdings_file)]

/-- Encoding of the full snapshot dictionary. -/
def encodeSnapshot (s : List (String × FinalRecord)) : Json :=
  Json.obj (s.map (fun e => (e.1, encodeFinalRecord e.2)))

/-- Decoding of one record object back into its fields (`data["name"]`, ...):
each field must be a string, except `fund_type` which may also be `null`. -/
def decodeFinalRecord (j : Json) : Option FinalRecord :=
  match j with
  | Json.obj fields =>
    match dictLookup fields "name", dictLookup fields "fund_type",
        dictLookup fields "currency", dictLookup fields "ter",
        dictLookup fields "price", dictLookup fields "date",
        dictLookup fields "factsheet", dictLookup fields "kid",
        dictLookup fields "product_page", dictLookup fields "holdings_file" with
    | some (Json.str name), some fund_type, some (Json.str currency),
      some (Json.str ter), some (Json.str price), some (Json.str date),
      some (Json.str factsheet), some (Json.str kid),
      some (Json.str product_page), some (Json.str holdings_file) =>
      match fund_type with
      | Json.null =>
        some { name := name, fund_type := none, currency := currency,
               ter := ter, price := price, date := date, factsheet := factsheet,
               kid := kid, product_page := product_page,
               holdings_file := holdings_file }
      | Json.str ft =>
        some { name := name, fund_type := some ft, currency := currency,
               ter := ter, price := price, date := date, factsheet := factsheet,
               kid := kid, product_page := product_page,
               holdings_file := holdings_file }
      | _ => none
    | _, _, _, _, _, _, _, _, _, _ => none
  | _ => none

/-- `json.load` rebuilding the snapshot dictionary key by key, in order. -/
def decodeFields :
    List (String × Json) → List (String × FinalRecord) →
    Option (List (String × FinalRecord))
  | [], acc => some acc
  | (k, v) :: rest, acc =>
    match decodeFinalRecord v with
    | some r => decodeFields rest (dictInsert k r acc)
    | none => none

/-- Decoding of a persisted snapshot document back into the typed mapping. -/
def decodeSnapshot (j : Json) : Option (List (String × FinalRecord)) :=
  match j with
  | Json.obj fields => decodeFields fields []
  | _ => none

/-- Run state of the iShares harvester: accumulated log, the products JSON
file cell, and the download directory (file name, written content). -/
structure IsharesSt where
  logs : List LogEvent
  fs : Option Json
  files : List (String × String)

/-- `ISharesScraper.get_products_json` (lines 164-173) together with
`_get_intermediate_products_json` (lines 42-95): log, locate the listing
table body (xpath locator), cycle its rows, enrich every provisional record,
then persist the final mapping with `_write_products_json`.  Any exception
(absent table, failing detail page) propagates and nothing is persisted. -/
def ishares_get_products_json (tbody : Option (List ISharesRow))
    (pages : String → ProductPage) (st : IsharesSt) :
    Except Exn (List (String × FinalRecord)) × IsharesSt :=
  let logs1 := st.logs ++ [LogEvent.info "Cycling through products table"]
  match get_located_element tbody "xpath" with
  | (glogs, Except.error e) =>
    (Except.error e, { st with logs := logs1 ++ glogs })
  | (glogs, Except.ok trows) =>
    let intermediate_json := cycle_trough_tbody trows
    match get_final_products_json pages intermediate_json with
    | (flogs, Except.error e) =>
      (Except.error e, { st with logs := logs1 ++ glogs ++ flogs })
    | (flogs, Except.ok final_json) =>
      (Except.ok final_json,
       { logs := logs1 ++ glogs ++ flogs
         fs := write_products_json (encodeSnapshot final_json) st.fs
         files := st.files })

/-- The external world one iShares run interacts with: whether each of the
three optional buttons ever becomes clickable, the listing table body, the
detail pages and the HTTP client. -/
structure IsharesWorld where
  cookieBtn : Bool
  privateBtn : Bool
  viewAllBtn : Bool
  tbody : Option (List ISharesRow)
  pages : String → ProductPage
  http : String → Nat × String

/-- `ISharesScraper.handle_initial_banners` (lines 18-31): dismiss the cookie
banner, then the private-investor banner, via `_click_button_by_xpath`. -/
def ishares_handle_initial_banners (w : IsharesWorld) (logs : List LogEvent) :
    Except Exn Unit × List LogEvent :=
  match click_button_by_xpath w.cookieBtn "cookie" with
  | (clogs, Except.error e) => (Except.error e, logs ++ clogs)
  | (clogs, Except.ok _) =>
    match click_button_by_xpath w.privateBtn "professional investor" with
    | (plogs, r) => (r, logs ++ clogs ++ plogs)

/-- `ishares.main()` (lines 190-198): open the catalog page, dismiss banners,
click "View all", extract and persist the catalog, acquire the holdings
files, then quit the driver.  There is no `try`/`finally`: the first
exception aborts the sequence where it occurs.  The returned `Bool` records
whether `scraper.quit()` (base_scraper.py lines 111-116) was invoked. -/
def ishares_main (w : IsharesWorld) : Except Exn Unit × Bool × IsharesSt :=
  let st0 : IsharesSt :=
    { logs := [LogEvent.info
        "Opening web page: https://www.ishares.com/it/investitore-privato/it/prodotti/etf-investments"]
      fs := none
      files := [] }
  match ishares_handle_initial_banners w st0.logs with
  | (Except.error e, logs) => (Except.error e, false, { st0 with logs := logs })
  | (Except.ok _, logs1) =>
    match click_button_by_xpath w.viewAllBtn "View all" with
    | (vlogs, Except.error e) =>
      (Except.error e, false, { st0 with logs := logs1 ++ vlogs })
    | (vlogs, Except.ok _) =>
      match ishares_get_products_json w.tbody w.pages
          { st0 with logs := logs1 ++ vlogs } with
      | (Except.error e, st2) => (Except.error e, false, st2)
      | (Except.ok products_dict, st2) =>
        let dl := ishares_download_product_files w.http products_dict
          (st2.logs, st2.files)
        (Except.ok (), true,
         { logs := dl.1 ++ [LogEvent.info "Closing the WebDriver"]
           fs := st2.fs
           files := dl.2 })

/-!
## Vanguard harvester (`vanguard.py`)
-/

/-- One `<tr>` of a Vanguard listing table body, as the fields its
`_cycle_trough_tbody` (lines 52-105) reads: the `<th>` text and anchor
`href`, then columns `td[1]`-`td[6]` and the document anchors of `td[7]` and
`td[8]`. -/
structure VanguardRow where
  th_text : String
  href : String
  currency : String
  ter : String
  price : String
  date : String
  isin : String
  ticker : String
  factsheet : String
  kid : String
deriving DecidableEq

/-- A Vanguard canonical record, with the exact fields of lines 93-103. -/
structure VRecord where
  name : String
  ticker : String
  currency : String
  ter : String
  price : String
  date : String
  factsheet : String
  kid : String
  product_page : String
deriving DecidableEq

/-- Python's `s.replace("\n", " ")` for the one-character pattern. -/
def replaceNewlineChars : List Char → List Char
  | [] => []
  | c :: cs => (if c = '\n' then ' ' else c) :: replaceNewlineChars cs

/-- `("Vanguard " + th.text).replace("\n", " ")` (line 61). -/
def vanguardName (th_text : String) : String :=
  String.mk (replaceNewlineChars ("Vanguard " ++ th_text).data)

/-- The record value stored for one Vanguard listing row. -/
def vRecordOfRow (row : VanguardRow) : VRecord :=
  { name := vanguardName row.th_text
    ticker := row.ticker
    currency := row.currency
    ter := row.ter
    price := row.price
    date := row.date
    factsheet := row.factsheet
    kid := row.kid
    product_page := row.href }

/-- `VanguardScraper._cycle_trough_tbody` (lines 52-105): every row is
admitted (no type filter) and stored under its ISIN, `results[isin] = {...}`. -/
def vanguard_cycle_trough_tbody (trows : List VanguardRow) :
    List (String × VRecord) :=
  trows.foldl (fun results row => dictInsert row.isin (vRecordOfRow row) results)
    []

/-- The methods defined on `BaseScraper` (base_scraper.py).  Python resolves
`self._save_products_json` against this table and `VanguardScraper`'s. -/
def baseScraperMethods : List String :=
  ["__init__", "_initialize_classwide_logger", "_configure_driver",
   "_generate_download_folder_path", "_rename_latest_downloaded_file",
   "quit", "open_web_page", "_click_button_by_xpath", "_get_located_element",
   "_write_products_json", "_read_products_json", "_download_file_with_request",
   "handle_initial_banners", "get_products_json", "download_product_files"]

/-- The methods defined on `VanguardScraper` (vanguard.py). -/
def vanguardScraperMethods : List String :=
  ["__init__", "handle_initial_banners", "get_products_json",
   "_download_single_product_holdings", "download_product_files"]

/-- Attribute resolution for a `VanguardScraper` instance: a method name
resolves iff the subclass or the base class defines it; otherwise Python
raises `AttributeError` at the call site. -/
def vanguardHasMethod (name : String) : Bool :=
  vanguardScraperMethods.contains name || baseScraperMethods.contains name

/-- Encoding of one Vanguard record as a JSON object, field for field. -/
def encodeVRecord (r : VRecord) : Json :=
  Json.obj
    [("name", Json.str r.name),
     ("ticker", Json.str r.ticker),
     ("currency", Json.str r.currency),
     ("ter", Json.str r.ter),
     ("price", Json.str r.price),
     ("date", Json.str r.date),
     ("factsheet", Json.str r.factsheet),
     ("kid", Json.str r.kid),
     ("product_page", Json.str r.product_page)]

/-- Encoding of the partitioned Vanguard products dictionary. -/
def encodeVProducts (products : List (String × List (String × VRecord))) :
    Json :=
  Json.obj (products.map (fun part =>
    (part.1, Json.obj (part.2.map (fun e => (e.1, encodeVRecord e.2))))))

/-- Run state of the Vanguard harvester: accumulated log, the products JSON
file cell, and the download directory as (file name, mtime) entries. -/
structure VanguardSt where
  logs : List LogEvent
  fs : Option Json
  dir : List (String × Nat)

/-- Python's `max(files, key=os.path.getmtime)`: the first entry of maximal
mtime (`max` keeps the earlier item on ties). -/
def maxByMtime : (String × Nat) → List (String × Nat) → String × Nat
  | best, [] => best
  | best, f :: rest => maxByMtime (if f.2 > best.2 then f else best) rest

/-- `BaseScraper._rename_latest_downloaded_file(new_file_name)` (lines
85-109): with an empty download folder, log an error and return `False`;
otherwise rename the most recently modified file to
`new_file_name.{its extension}` (extension = last `.`-separated component of
the old name) and return `True`.  `os.rename` replaces an existing file of
the target name; an OS-level rename failure (the `except` branch) is outside
the model. -/
def rename_latest_downloaded_file (new_file_name : String) (st : VanguardSt) :
    Bool × VanguardSt :=
  match st.dir with
  | [] =>
    (false,
     { st with logs := st.logs ++
        [LogEvent.error "No files found in the download folder"] })
  | f :: rest =>
    let latest := maxByMtime f rest
    let file_extension := (pySplit latest.1 '.').getLastD ""
    let new_name := new_file_name ++ "." ++ file_extension
    (true,
     { st with
        logs := st.logs ++
          [LogEvent.info ("Renaming file " ++ latest.1 ++ " to: " ++ new_name)]
        dir := (st.dir.filter (fun g => g.1 ≠ latest.1 ∧ g.1 ≠ new_name)) ++
          [(new_name, latest.2)] })

/-- The tail of `_download_single_product_holdings` shared by the three known
partitions (lines 147-153): locate the download button (xpath locator, raises
on timeout), click it — the browser deposits `downloadOf product_page` in the
download folder, when the click produces a file —, wait, and rename the most
recent file to the ISIN. -/
def vanguard_click_and_rename (buttonOf : String → Bool)
    (downloadOf : String → Option (String × Nat))
    (isin_number : String) (product_page : String) (st : VanguardSt) :
    Except Exn Unit × VanguardSt :=
  match get_located_element
      (if buttonOf product_page then some () else none) "xpath" with
  | (glogs, Except.error e) =>
    (Except.error e, { st with logs := st.logs ++ glogs })
  | (glogs, Except.ok _) =>
    let st2 : VanguardSt :=
      { st with
         logs := st.logs ++ glogs
         dir := st.dir ++ (downloadOf product_page).toList }
    (Except.ok (), (rename_latest_downloaded_file isin_number st2).2)

/-- `VanguardScraper._download_single_product_holdings(product_type,
isin_number, product_page)` (lines 116-153): log, open the product page,
branch the download-button xpath on the asset-class partition — an unknown
partition logs and raises `ValueError` —, locate and click the button (the
browser then deposits `downloadOf product_page` in the download folder, if
any), and rename the latest downloaded file to the ISIN.  The xpath string
contents do not influence behaviour and are elided. -/
def download_single_product_holdings (buttonOf : String → Bool)
    (downloadOf : String → Option (String × Nat))
    (product_type : String) (isin_number : String) (product_page : String)
    (st : VanguardSt) : Except Exn Unit × VanguardSt :=
  let logs1 := st.logs ++
    [LogEvent.info ("Downloading the holdings file from " ++ product_page),
     LogEvent.info ("Opening web page: " ++ product_page)]
  match product_type with
  | "equity" =>
    vanguard_click_and_rename buttonOf downloadOf isin_number product_page
      { st with logs := logs1 }
  | "bond" =>
    vanguard_click_and_rename buttonOf downloadOf isin_number product_page
      { st with logs := logs1 }
  | "multi_asset" =>
    vanguard_click_and_rename buttonOf downloadOf isin_number product_page
      { st with logs := logs1 }
  | _ =>
    (Except.error Exn.valueError,
     { st with logs := logs1 ++
        [LogEvent.error ("Unknown product type: " ++ product_type)] })

/-- The inner `for isin in products_dict[product_type].keys()` loop of
`VanguardScraper.download_product_files` (lines 159-162): download every
product of one partition in order; the first exception aborts the loop. -/
def vanguard_download_partition (buttonOf : String → Bool)
    (downloadOf : String → Option (String × Nat)) (product_type : String) :
    List (String × VRecord) → VanguardSt → Except Exn Unit × VanguardSt
  | [], st => (Except.ok (), st)
  | (isin, p) :: rest, st =>
    match download_single_product_holdings buttonOf downloadOf product_type
        isin p.product_page st with
    | (Except.ok _, st2) =>
      vanguard_download_partition buttonOf downloadOf product_type rest st2
    | (Except.error e, st2) => (Except.error e, st2)

/-- The outer `for product_type in products_dict.keys()` loop of
`VanguardScraper.download_product_files` (lines 157-162); the first exception
aborts all remaining acquisitions. -/
def vanguard_download_all (buttonOf : String → Bool)
    (downloadOf : String → Option (String × Nat)) :
    List (String × List (String × VRecord)) → VanguardSt →
    Except Exn Unit × VanguardSt
  | [], st => (Except.ok (), st)
  | (product_type, prods) :: rest, st =>
    match vanguard_download_partition buttonOf downloadOf product_type prods
        st with
    | (Except.ok _, st2) => vanguard_download_all buttonOf downloadOf rest st2
    | (Except.error e, st2) => (Except.error e, st2)

/-- `VanguardScraper.get_products_json` (lines 32-114): log, locate the
equity, bond and multi-asset table bodies (any absence raises), cycle each
into its partition dictionary, then call `self._save_products_json(...)` —
an attribute neither `VanguardScraper` nor `BaseScraper` defines, so, were it
defined the snapshot would be persisted, but attribute resolution fails and
`AttributeError` is raised with nothing persisted. -/
def vanguard_get_products_json (tbodyEquity tbodyBond tbodyMulti :
    Option (List VanguardRow)) (st : VanguardSt) :
    Except Exn (List (String × List (String × VRecord))) × VanguardSt :=
  let logs1 := st.logs ++ [LogEvent.info "Cycling through products table"]
  match get_located_element tbodyEquity "xpath" with
  | (glogs, Except.error e) =>
    (Except.error e, { st with logs := logs1 ++ glogs })
  | (glogs, Except.ok rowsEquity) =>
    match get_located_element tbodyBond "xpath" with
    | (blogs, Except.error e) =>
      (Except.error e, { st with logs := logs1 ++ glogs ++ blogs })
    | (blogs, Except.ok rowsBond) =>
      match get_located_element tbodyMulti "xpath" with
      | (mlogs, Except.error e) =>
        (Except.error e, { st with logs := logs1 ++ glogs ++ blogs ++ mlogs })
      | (mlogs, Except.ok rowsMulti) =>
        let products_dict :=
          [("equity", vanguard_cycle_trough_tbody rowsEquity),
           ("bond", vanguard_cycle_trough_tbody rowsBond),
           ("multi_asset", vanguard_cycle_trough_tbody rowsMulti)]
        if vanguardHasMethod "_save_products_json" then
          (Except.ok products_dict,
           { logs := logs1 ++ glogs ++ blogs ++ mlogs
             fs := write_products_json (encodeVProducts products_dict) st.fs
             dir := st.dir })
        else
          (Except.error Exn.attributeError,
           { st with logs := logs1 ++ glogs ++ blogs ++ mlogs })

/-- `VanguardScraper.download_product_files(products_dict)` (lines 155-162):
its first statement is again `self._save_products_json(products_dict)`, so
attribute resolution raises `AttributeError` before any acquisition; only
were the method defined would the two acquisition loops run. -/
def vanguard_download_product_files (buttonOf : String → Bool)
    (downloadOf : String → Option (String × Nat))
    (products_dict : List (String × List (String × VRecord)))
    (st : VanguardSt) : Except Exn Unit × VanguardSt :=
  if vanguardHasMethod "_save_products_json" then
    vanguard_download_all buttonOf downloadOf products_dict
      { st with fs := write_products_json (encodeVProducts products_dict) st.fs }
  else (Except.error Exn.attributeError, st)

/-- The external world one Vanguard run interacts with. -/
structure VanguardWorld where
  cookieBtn : Bool
  professionalBtn : Bool
  tbodyEquity : Option (List VanguardRow)
  tbodyBond : Option (List VanguardRow)
  tbodyMulti : Option (List VanguardRow)
  buttonOf : String → Bool
  downloadOf : String → Option (String × Nat)

/-- `VanguardScraper.handle_initial_banners` (lines 15-30). -/
def vanguard_handle_initial_banners (w : VanguardWorld)
    (logs : List LogEvent) : Except Exn Unit × List LogEvent :=
  match click_button_by_xpath w.cookieBtn "cookie" with
  | (clogs, Except.error e) => (Except.error e, logs ++ clogs)
  | (clogs, Except.ok _) =>
    match click_button_by_xpath w.professionalBtn "professional investor" with
    | (plogs, r) => (r, logs ++ clogs ++ plogs)

/-- `vanguard.main()` (lines 165-171): open the catalog page, dismiss
banners, extract and persist the catalog, acquire the files, quit.  No
`try`/`finally`: the first exception aborts the sequence.  The returned
`Bool` records whether `scraper.quit()` was invoked. -/
def vanguard_main (w : VanguardWorld) : Except Exn Unit × Bool × VanguardSt :=
  let st0 : VanguardSt :=
    { logs := [LogEvent.info
        "Opening web page: https://www.it.vanguard/professional/prodotti?tipo-di-prodotto=etf"]
      fs := none
      dir := [] }
  match vanguard_handle_initial_banners w st0.logs with
  | (Except.error e, logs) => (Except.error e, false, { st0 with logs := logs })
  | (Except.ok _, logs1) =>
    match vanguard_get_products_json w.tbodyEquity w.tbodyBond w.tbodyMulti
        { st0 with logs := logs1 } with
    | (Except.error e, st2) => (Except.error e, false, st2)
    | (Except.ok products_dict, st2) =>
      match vanguard_download_product_files w.buttonOf w.downloadOf
          products_dict st2 with
      | (Except.error e, st3) => (Except.error e, false, st3)
      | (Except.ok _, st3) =>
        (Except.ok (), true,
         { st3 with logs := st3.logs ++ [LogEvent.info "Closing the WebDriver"] })

/-!
## Helper lemmas: decimal strings, dictionaries, folds
-/

theorem readDigitsNat_append_singleton (l : List Char) (c : Char) :
    readDigitsNat (l ++ [c]) = readDigitsNat l * 10 + charDigit c := by
  simp [readDigitsNat, List.foldl_append]

theorem charDigit_digitChar (d : Nat) (h : d < 10) :
    charDigit (Nat.digitChar d) = d := by
  interval_cases d <;> rfl

theorem digitChars_readback (fuel : Nat) :
    ∀ n : Nat, n < 10 ^ fuel → readDigitsNat (digitChars fuel n) = n := by
  induction fuel with
  | zero =>
    intro n h
    interval_cases n
    rfl
  | succ fuel ih =>
    intro n h
    by_cases hn : n < 10
    · simp only [digitChars, if_pos hn, readDigitsNat, List.foldl]
      rw [Nat.zero_mul, Nat.zero_add, charDigit_digitChar n hn]
    · have hdiv : n / 10 < 10 ^ fuel := by
        rw [Nat.div_lt_iff_lt_mul (by norm_num : 0 < 10)]
        calc n < 10 ^ (fuel + 1) := h
        _ = 10 ^ fuel * 10 := by rw [pow_succ]
      simp only [digitChars, if_neg hn]
      rw [readDigitsNat_append_singleton, ih _ hdiv,
        charDigit_digitChar _ (Nat.mod_lt n (by norm_num))]
      omega

theorem natStr_injective : Function.Injective natStr := by
  intro m n h
  have hdata : digitChars (m + 1) m = digitChars (n + 1) n :=
    congrArg String.data h
  have hm : readDigitsNat (digitChars (m + 1) m) = m :=
    digitChars_readback (m + 1) m
      (lt_of_lt_of_le (Nat.lt_two_pow m)
        (le_trans (Nat.pow_le_pow_right (by norm_num) (Nat.le_succ m))
          (Nat.pow_le_pow_left (by norm_num) (m + 1))))
  have hn : readDigitsNat (digitChars (n + 1) n) = n :=
    digitChars_readback (n + 1) n
      (lt_of_lt_of_le (Nat.lt_two_pow n)
        (le_trans (Nat.pow_le_pow_right (by norm_num) (Nat.le_succ n))
          (Nat.pow_le_pow_left (by norm_num) (n + 1))))
  rw [← hm, ← hn, hdata]

theorem dummyKey_injective : Function.Injective dummyKey := by
  intro m n h
  apply natStr_injective
  have hdata := congrArg String.data h
  simp only [dummyKey, String.data_append] at hdata
  exact String.ext (List.append_cancel_left hdata)

theorem dictKeys_nil : dictKeys ([] : List (String × α)) = [] := rfl

theorem dictKeys_cons (k : String) (v : α) (l : List (String × α)) :
    dictKeys ((k, v) :: l) = k :: dictKeys l := rfl

theorem dictKeys_append (l1 l2 : List (String × α)) :
    dictKeys (l1 ++ l2) = dictKeys l1 ++ dictKeys l2 := by
  simp [dictKeys]

theorem dictInsert_eq_append (key : String) (v : α) (l : List (String × α))
    (h : key ∉ dictKeys l) : dictInsert key v l = l ++ [(key, v)] := by
  induction l with
  | nil => rfl
  | cons x rest ih =>
    obtain ⟨k, w⟩ := x
    rw [dictKeys_cons, List.mem_cons] at h
    push_neg at h
    have hkk : ¬ k = key := fun hk => h.1 hk.symm
    simp only [dictInsert, if_neg hkk, List.cons_append, List.cons.injEq,
      true_and]
    exact ih h.2

theorem dictKeys_dictInsert (key : String) (v : α) (l : List (String × α)) :
    dictKeys (dictInsert key v l) =
      if key ∈ dictKeys l then dictKeys l else dictKeys l ++ [key] := by
  induction l with
  | nil => simp [dictInsert, dictKeys_nil, dictKeys_cons]
  | cons x rest ih =>
    obtain ⟨k, w⟩ := x
    by_cases hk : k = key
    · subst hk
      simp [dictInsert, dictKeys_cons]
    · simp only [dictInsert, if_neg hk, dictKeys_cons, ih, List.mem_cons]
      by_cases hmem : key ∈ dictKeys rest
      · simp [hmem]
      · have hkk : ¬ key = k := fun h => hk h.symm
        simp [hmem, hkk]

theorem mem_dictKeys_dictInsert (k key : String) (v : α) (l : List (String × α)) :
    k ∈ dictKeys (dictInsert key v l) ↔ k = key ∨ k ∈ dictKeys l := by
  rw [dictKeys_dictInsert]
  by_cases hmem : key ∈ dictKeys l
  · simp only [if_pos hmem]
    constructor
    · exact Or.inr
    · rintro (rfl | hk)
      · exact hmem
      · exact hk
  · simp only [if_neg hmem, List.mem_append, List.mem_singleton]
    tauto

theorem nodup_dictKeys_dictInsert (key : String) (v : α) (l : List (String × α))
    (h : (dictKeys l).Nodup) : (dictKeys (dictInsert key v l)).Nodup := by
  rw [dictKeys_dictInsert]
  by_cases hmem : key ∈ dictKeys l
  · simpa [hmem] using h
  · simp only [if_neg hmem]
    refine List.Nodup.append h (List.nodup_singleton key) ?_
    intro a ha hb
    rw [List.mem_singleton] at hb
    subst hb
    exact hmem ha

theorem dictLookup_dictInsert_self (key : String) (v : α) (l : List (String × α)) :
    dictLookup (dictInsert key v l) key = some v := by
  induction l with
  | nil => simp [dictInsert, dictLookup]
  | cons x rest ih =>
    obtain ⟨k2, w⟩ := x
    by_cases hk : k2 = key
    · subst hk
      simp [dictInsert, dictLookup]
    · simp [dictInsert, if_neg hk, dictLookup, hk, ih]

theorem dictLookup_dictInsert_ne (k key : String) (v : α) (l : List (String × α))
    (h : key ≠ k) : dictLookup (dictInsert key v l) k = dictLookup l k := by
  induction l with
  | nil => simp [dictInsert, dictLookup, h]
  | cons x rest ih =>
    obtain ⟨k2, w⟩ := x
    by_cases hk : k2 = key
    · subst hk
      simp [dictInsert, dictLookup, h, ih]
    · simp only [dictInsert, if_neg hk]
      by_cases hk2 : k2 = k
      · simp [dictLookup, hk2]
      · simp [dictLookup, hk2, ih]

/-- The last element of a list satisfying a predicate, if any. -/
def lastMatch (p : α → Bool) : List α → Option α
  | [] => none
  | x :: xs =>
    match lastMatch p xs with
    | some y => some y
    | none => if p x then some x else none

theorem foldl_dictInsert_mem_keys (keyf : β → String) (valf : β → α)
    (l : List β) (init : List (String × α)) (k : String) :
    k ∈ dictKeys (l.foldl (fun acc e => dictInsert (keyf e) (valf e) acc) init) ↔
      (∃ e ∈ l, keyf e = k) ∨ k ∈ dictKeys init := by
  induction l generalizing init with
  | nil => simp
  | cons x rest ih =>
    rw [List.foldl_cons, ih, mem_dictKeys_dictInsert]
    simp only [List.mem_cons]
    constructor
    · rintro (⟨e, he, hkey⟩ | (rfl | hmem))
      · exact Or.inl ⟨e, Or.inr he, hkey⟩
      · exact Or.inl ⟨x, Or.inl rfl, rfl⟩
      · exact Or.inr hmem
    · rintro (⟨e, (rfl | he), hkey⟩ | hmem)
      · exact Or.inr (Or.inl hkey.symm)
      · exact Or.inl ⟨e, he, hkey⟩
      · exact Or.inr (Or.inr hmem)

theorem foldl_dictInsert_nodup (keyf : β → String) (valf : β → α)
    (l : List β) (init : List (String × α)) (h : (dictKeys init).Nodup) :
    (dictKeys (l.foldl (fun acc e => dictInsert (keyf e) (valf e) acc)
      init)).Nodup := by
  induction l generalizing init with
  | nil => exact h
  | cons x rest ih =>
    rw [List.foldl_cons]
    exact ih _ (nodup_dictKeys_dictInsert _ _ _ h)

theorem foldl_dictInsert_lookup (keyf : β → String) (valf : β → α)
    (l : List β) (init : List (String × α)) (k : String) :
    dictLookup (l.foldl (fun acc e => dictInsert (keyf e) (valf e) acc) init) k =
      match lastMatch (fun e => keyf e == k) l with
      | some e => some (valf e)
      | none => dictLookup init k := by
  induction l generalizing init with
  | nil => simp [lastMatch]
  | cons x rest ih =>
    rw [List.foldl_cons, ih]
    simp only [lastMatch]
    cases hlast : lastMatch (fun e => keyf e == k) rest with
    | some y => simp
    | none =>
      simp only []
      by_cases hk : keyf x = k
      · subst hk
        simp [dictLookup_dictInsert_self]
      · have : (keyf x == k) = false := by
          simp [hk]
        simp [this, dictLookup_dictInsert_ne k (keyf x) _ _ hk]

/-!
## Behaviour of the record enricher when detail pages render
-/

/-- All six detail-page elements eventually become present (their text may
still be anything, including empty). -/
def scrapeSucceeds (pg : ProductPage) : Prop :=
  pg.isin.isSome = true ∧ pg.price.isSome = true ∧ pg.ticker.isSome = true ∧
  pg.factsheet.isSome = true ∧ pg.kid.isSome = true ∧
  pg.holdings_file.isSome = true

/-- The infos dictionary extracted from a fully rendered detail page. -/
def infosOf (pg : ProductPage) : ScrapeInfos :=
  { isin := pg.isin.getD ""
    ticker := pg.ticker.getD ""
    price := pg.price.getD ""
    factsheet := pg.factsheet.getD ""
    kid := pg.kid.getD ""
    holdings_file := pg.holdings_file.getD "" }

theorem scrape_single_ok (pg : ProductPage) (url : String)
    (h : scrapeSucceeds pg) :
    scrape_single_product_infos pg url =
      ([LogEvent.info ("Opening web page: " ++ url)],
       Except.ok (infosOf pg)) := by
  obtain ⟨h1, h2, h3, h4, h5, h6⟩ := h
  obtain ⟨isin, hi⟩ := Option.isSome_iff_exists.1 h1
  obtain ⟨price, hp⟩ := Option.isSome_iff_exists.1 h2
  obtain ⟨ticker, ht⟩ := Option.isSome_iff_exists.1 h3
  obtain ⟨factsheet, hf⟩ := Option.isSome_iff_exists.1 h4
  obtain ⟨kid, hk⟩ := Option.isSome_iff_exists.1 h5
  obtain ⟨holdings, hh⟩ := Option.isSome_iff_exists.1 h6
  simp [scrape_single_product_infos, wexBind, get_located_element, after_wait,
    wait_until_presence, infosOf, hi, hp, ht, hf, hk, hh]

/-- The per-record step of the enrichment loop, as a pure fold step. -/
def enrichStep (pages : String → ProductPage)
    (acc : List (String × FinalRecord)) (e : String × IntermediateRecord) :
    List (String × FinalRecord) :=
  dictInsert (infosOf (pages e.2.product_page)).isin
    (mkFinalRecord e.2 (infosOf (pages e.2.product_page))) acc

theorem get_final_go_ok (pages : String → ProductPage)
    (inter : List (String × IntermediateRecord))
    (acc : List (String × FinalRecord)) (logs : List LogEvent)
    (h : ∀ e ∈ inter, scrapeSucceeds (pages e.2.product_page)) :
    get_final_products_json_go pages inter acc logs =
      (logs ++ inter.map (fun e =>
        LogEvent.info ("Opening web page: " ++ e.2.product_page)),
       Except.ok (inter.foldl (enrichStep pages) acc)) := by
  induction inter generalizing acc logs with
  | nil => simp [get_final_products_json_go]
  | cons x rest ih =>
    obtain ⟨k, ir⟩ := x
    have hx : scrapeSucceeds (pages ir.product_page) := h (k, ir) (by simp)
    rw [get_final_products_json_go, scrape_single_ok _ _ hx]
    dsimp only
    rw [ih _ _ (fun e he => h e (List.mem_cons_of_mem _ he))]
    simp [enrichStep, List.append_assoc]

/-- C1 counterexample input: one provisional record whose detail page renders
all six elements but yields an empty ISIN text. -/
def cexInter : List (String × IntermediateRecord) :=
  [("dummy_key_0",
    { name := "iShares Core ETF" ++ String.mk ['\n'] ++ "Equity"
      currency := "EUR"
      hedged := "No"
      acc_distr := "Acc"
      ter := "0.20%"
      date := "01/01/2026"
      product_page := "p1" })]

/-- C1 counterexample detail-page oracle: the ISIN element is present with
empty text. -/
def cexPages : String → ProductPage := fun _ =>
  { isin := some ""
    price := some "10.00"
    ticker := some "TICK"
    factsheet := some "fact"
    kid := some "kid"
    holdings_file := some "hold" }

/-- C1 counterexample: a provisional record whose detail page yields no
natural identifier (empty ISIN text) is NOT dropped by
`_get_final_products_json` — it enters the final snapshot keyed by the empty
string, and the snapshot size equals the provisional-record count (1), not
the count minus one (0).  No error is logged either (the log is the single
page-navigation info event). -/
theorem enricher_keeps_unidentifiable_record :
    (get_final_products_json cexPages cexInter).2 =
      Except.ok [("",
        { name := "iShares Core ETF"
          fund_type := none
          currency := "EUR"
          ter := "0.20%"
          price := "10.00"
          date := "01/01/2026"
          factsheet := "fact"
          kid := "kid"
          product_page := "p1"
          holdings_file := "hold" })] ∧
    (get_final_products_json cexPages cexInter).1.filter LogEvent.isError =
      [] := by
  constructor
  · rfl
  · rfl

/-- C1 amended: the Record Enricher never drops an individual provisional
record.  When every detail page renders its six elements, the run succeeds
and every provisional record contributes an entry keyed by whatever ISIN
text its detail page yielded (even the empty string): the snapshot keys are
exactly the extracted identifiers, without duplicates, so the snapshot size
is the number of distinct extracted identifiers — not the provisional count
minus the number of identifier-less records. -/
theorem enricher_never_drops (pages : String → ProductPage)
    (inter : List (String × IntermediateRecord))
    (h : ∀ e ∈ inter, scrapeSucceeds (pages e.2.product_page)) :
    ∃ S, (get_final_products_json pages inter).2 = Except.ok S ∧
      (∀ e ∈ inter, (infosOf (pages e.2.product_page)).isin ∈ dictKeys S) ∧
      (∀ k ∈ dictKeys S, ∃ e ∈ inter,
        (infosOf (pages e.2.product_page)).isin = k) ∧
      (dictKeys S).Nodup := by
  refine ⟨inter.foldl (enrichStep pages) [], ?_, ?_, ?_, ?_⟩
  · rw [get_final_products_json, get_final_go_ok pages inter [] [] h]
  · intro e he
    rw [show enrichStep pages =
        (fun acc e => dictInsert ((fun e => (infosOf (pages e.2.product_page)).isin) e)
          ((fun e => mkFinalRecord e.2 (infosOf (pages e.2.product_page))) e) acc)
      from rfl]
    rw [foldl_dictInsert_mem_keys]
    exact Or.inl ⟨e, he, rfl⟩
  · intro k hk
    rw [show enrichStep pages =
        (fun acc e => dictInsert ((fun e => (infosOf (pages e.2.product_page)).isin) e)
          ((fun e => mkFinalRecord e.2 (infosOf (pages e.2.product_page))) e) acc)
      from rfl] at hk
    rw [foldl_dictInsert_mem_keys] at hk
    rcases hk with ⟨e, he, hkey⟩ | hk
    · exact ⟨e, he, hkey⟩
    · simp [dictKeys_nil] at hk
  · rw [show enrichStep pages =
        (fun acc e => dictInsert ((fun e => (infosOf (pages e.2.product_page)).isin) e)
          ((fun e => mkFinalRecord e.2 (infosOf (pages e.2.product_page))) e) acc)
      from rfl]
    exact foldl_dictInsert_nodup _ _ inter [] (by simp [dictKeys_nil])

/-- Witness for the amended C1 theorem at a concrete input. -/
theorem enricher_never_drops_witness :
    ∃ S, (get_final_products_json cexPages cexInter).2 = Except.ok S ∧
      (∀ e ∈ cexInter, (infosOf (cexPages e.2.product_page)).isin ∈ dictKeys S) ∧
      (∀ k ∈ dictKeys S, ∃ e ∈ cexInter,
        (infosOf (cexPages e.2.product_page)).isin = k) ∧
      (dictKeys S).Nodup :=
  enricher_never_drops cexPages cexInter
    (by intro e he; exact ⟨rfl, rfl, rfl, rfl, rfl, rfl⟩)

/-- C7 counterexample input: two provisional records whose detail pages yield
the same ISIN but different prices. -/
def dupInter : List (String × IntermediateRecord) :=
  [("dummy_key_0",
    { name := "Fund A", currency := "EUR", hedged := "No", acc_distr := "Acc",
      ter := "0.10%", date := "01/01/2026", product_page := "pA" }),
   ("dummy_key_1",
    { name := "Fund B", currency := "USD", hedged := "No", acc_distr := "Dist",
      ter := "0.30%", date := "02/01/2026", product_page := "pB" })]

/-- C7 counterexample detail-page oracle: both pages yield ISIN `IE00X`. -/
def dupPages : String → ProductPage := fun url =>
  if url = "pA" then
    { isin := some "IE00X", price := some "10.00", ticker := some "AAA",
      factsheet := some "fa", kid := some "ka", holdings_file := some "ha" }
  else
    { isin := some "IE00X", price := some "20.00", ticker := some "BBB",
      factsheet := some "fb", kid := some "kb", holdings_file := some "hb" }

/-- C7 counterexample: when two provisional records extract the same natural
identifier, exactly one canonical record is kept and it is the later one
(last-write-wins) — but NO collision is logged: the log contains no
error-level event at all, refuting the claim's "and the collision is
logged" conjunct. -/
theorem duplicate_identifier_collision_is_silent :
    (get_final_products_json dupPages dupInter).2 =
      Except.ok [("IE00X",
        { name := "Fund B"
          fund_type := none
          currency := "USD"
          ter := "0.30%"
          price := "20.00"
          date := "02/01/2026"
          factsheet := "fb"
          kid := "kb"
          product_page := "pB"
          holdings_file := "hb" })] ∧
    (get_final_products_json dupPages dupInter).1.filter LogEvent.isError =
      [] := by
  constructor
  · rfl
  · rfl

/-- C7 amended: in one snapshot the natural identifiers are pairwise
distinct, and on a duplicate exactly the later record is kept
(last-write-wins), but the collision is silent — no error-level event is
logged.  The lookup of any identifier returns the record built from the
last provisional record that extracted it.  Likewise, the keys of each
Vanguard partition dictionary (keyed by listing-page ISIN the same way) are
pairwise distinct. -/
theorem snapshot_identifiers_pairwise_distinct (pages : String → ProductPage)
    (inter : List (String × IntermediateRecord))
    (h : ∀ e ∈ inter, scrapeSucceeds (pages e.2.product_page)) :
    (∃ S, (get_final_products_json pages inter).2 = Except.ok S ∧
      (dictKeys S).Nodup ∧
      (∀ k, dictLookup S k =
        match lastMatch
            (fun e => (infosOf (pages e.2.product_page)).isin == k) inter with
        | some e => some (mkFinalRecord e.2 (infosOf (pages e.2.product_page)))
        | none => none) ∧
      (get_final_products_json pages inter).1.filter LogEvent.isError = []) ∧
    (∀ rows : List VanguardRow,
      (dictKeys (vanguard_cycle_trough_tbody rows)).Nodup) := by
  constructor
  · refine ⟨inter.foldl (enrichStep pages) [], ?_, ?_, ?_, ?_⟩
    · rw [get_final_products_json, get_final_go_ok pages inter [] [] h]
    · rw [show enrichStep pages =
          (fun acc e => dictInsert ((fun e => (infosOf (pages e.2.product_page)).isin) e)
            ((fun e => mkFinalRecord e.2 (infosOf (pages e.2.product_page))) e) acc)
        from rfl]
      exact foldl_dictInsert_nodup _ _ inter [] (by simp [dictKeys_nil])
    · intro k
      rw [show enrichStep pages =
          (fun acc e => dictInsert ((fun e => (infosOf (pages e.2.product_page)).isin) e)
            ((fun e => mkFinalRecord e.2 (infosOf (pages e.2.product_page))) e) acc)
        from rfl]
      rw [foldl_dictInsert_lookup]
      cases lastMatch (fun e => (infosOf (pages e.2.product_page)).isin == k)
        inter with
      | some e => rfl
      | none => rfl
    · rw [get_final_products_json, get_final_go_ok pages inter [] [] h]
      simp only [List.nil_append, List.filter_map]
      rw [show (LogEvent.isError ∘ fun e : String × IntermediateRecord =>
          LogEvent.info ("Opening web page: " ++ e.2.product_page)) =
          (fun _ => false) from rfl]
      simp
  · intro rows
    rw [vanguard_cycle_trough_tbody,
      show (fun (results : List (String × VRecord)) (row : VanguardRow) =>
          dictInsert row.isin (vRecordOfRow row) results) =
        (fun results row => dictInsert ((fun r : VanguardRow => r.isin) row)
          ((fun r => vRecordOfRow r) row) results) from rfl]
    exact foldl_dictInsert_nodup _ _ rows [] (by simp [dictKeys_nil])

/-- Witness for the amended C7 theorem at a concrete input. -/
theorem snapshot_identifiers_pairwise_distinct_witness :
    (∃ S, (get_final_products_json dupPages dupInter).2 = Except.ok S ∧
      (dictKeys S).Nodup ∧
      (∀ k, dictLookup S k =
        match lastMatch
            (fun e => (infosOf (dupPages e.2.product_page)).isin == k) dupInter with
        | some e => some (mkFinalRecord e.2 (infosOf (dupPages e.2.product_page)))
        | none => none) ∧
      (get_final_products_json dupPages dupInter).1.filter LogEvent.isError =
        []) ∧
    (∀ rows : List VanguardRow,
      (dictKeys (vanguard_cycle_trough_tbody rows)).Nodup) :=
  snapshot_identifiers_pairwise_distinct dupPages dupInter
    (by
      intro e he
      rw [dupInter] at he
      rcases List.mem_cons.1 he with rfl | he2
      · exact ⟨rfl, rfl, rfl, rfl, rfl, rfl⟩
      · rcases List.mem_cons.1 he2 with rfl | he3
        · exact ⟨rfl, rfl, rfl, rfl, rfl, rfl⟩
        · cases he3)

/-- C2 (evaluation at the failing input): when a button never becomes
clickable within the timeout — e.g. an absent optional cookie banner — the
wait raises selenium's `TimeoutException`, which the
`except NoSuchElementException` clause of `_click_button_by_xpath` does NOT
catch: the exception propagates out of the primitive instead of being logged
and swallowed, so the primitive does not return normally as the claim
states. -/
theorem click_button_timeout_propagates :
    click_button_by_xpath false "cookie" =
      ([LogEvent.info "Clicking the cookie button"],
       Except.error Exn.timeoutException) := rfl

/-- C8: calling `_get_located_element` with a locator scheme outside the
supported closed set (not `"classname"`, not `"xpath"`) logs an error and
raises `ValueError` — fatal, since the surrounding `except` clause only
intercepts `NoSuchElementException`; for the two supported schemes no
`ValueError` failure occurs (whatever the page state). -/
theorem locator_kind_contract (element : Option α) (locator : String) :
    ((locator ≠ "classname" ∧ locator ≠ "xpath") →
      get_located_element element locator =
        ([LogEvent.error ("Locator not implemented: " ++ locator)],
         Except.error Exn.valueError)) ∧
    ((locator = "classname" ∨ locator = "xpath") →
      (get_located_element element locator).2 ≠ Except.error Exn.valueError) := by
  constructor
  · intro h
    unfold get_located_element
    split
    · exact absurd rfl h.1
    · exact absurd rfl h.2
    · rfl
  · rintro (rfl | rfl) <;>
      cases element <;>
        simp [get_located_element, after_wait, wait_until_presence]

/-- Witness for the C8 theorem at concrete inputs: the unsupported scheme
`"css"` fails with `ValueError`, the supported scheme `"classname"` does
not. -/
theorem locator_kind_contract_witness :
    get_located_element (none : Option Unit) "css" =
      ([LogEvent.error ("Locator not implemented: " ++ "css")],
       Except.error Exn.valueError) ∧
    (get_located_element (none : Option Unit) "classname").2 ≠
      Except.error Exn.valueError :=
  ⟨(locator_kind_contract (none : Option Unit) "css").1 (by decide),
   (locator_kind_contract (none : Option Unit) "classname").2 (Or.inl rfl)⟩

theorem decodeFinalRecord_encode (r : FinalRecord) :
    decodeFinalRecord (encodeFinalRecord r) = some r := by
  cases r with
  | mk name fund_type currency ter price date factsheet kid product_page
      holdings_file => cases fund_type <;> rfl

theorem decodeFields_encode (S acc : List (String × FinalRecord))
    (h : (dictKeys acc ++ dictKeys S).Nodup) :
    decodeFields (S.map (fun e => (e.1, encodeFinalRecord e.2))) acc =
      some (acc ++ S) := by
  induction S generalizing acc with
  | nil => simp [decodeFields]
  | cons x rest ih =>
    obtain ⟨k, r⟩ := x
    rw [List.map_cons, decodeFields, decodeFinalRecord_encode]
    dsimp only
    have hk : k ∉ dictKeys acc := by
      intro hmem
      rw [dictKeys_cons] at h
      exact (List.disjoint_of_nodup_append h) hmem (List.mem_cons_self k _)
    rw [dictInsert_eq_append k r acc hk]
    have h2 : (dictKeys (acc ++ [(k, r)]) ++ dictKeys rest).Nodup := by
      rw [dictKeys_append, dictKeys_cons, dictKeys_nil, List.append_assoc,
        List.singleton_append]
      rw [dictKeys_cons] at h
      exact h
    rw [ih (acc ++ [(k, r)]) h2, List.append_assoc, List.singleton_append]

/-- C3: the Catalog Store round-trips any snapshot: writing the serialized
mapping and reading it back returns the same document, decoding the encoded
snapshot recovers every record field for field (`fund_type`'s `None` and
every string survive unchanged), and a write yields the same stored
document whatever was previously at the path — overwrite, not append. -/
theorem catalog_store_round_trip (S : List (String × FinalRecord))
    (fs fs2 : Option Json) (h : (dictKeys S).Nodup) :
    read_products_json (write_products_json (encodeSnapshot S) fs) =
      some (encodeSnapshot S) ∧
    decodeSnapshot (encodeSnapshot S) = some S ∧
    write_products_json (encodeSnapshot S) fs =
      write_products_json (encodeSnapshot S) fs2 := by
  refine ⟨rfl, ?_, rfl⟩
  have hd := decodeFields_encode S [] (by simpa [dictKeys_nil] using h)
  simpa [decodeSnapshot, encodeSnapshot] using hd

/-- A concrete one-record snapshot used as the C3 witness input. -/
def rtSnapshot : List (String × FinalRecord) :=
  [("IE00X",
    { name := "Fund A"
      fund_type := none
      currency := "EUR"
      ter := "0.10%"
      price := "10.00"
      date := "01/01/2026"
      factsheet := "fa"
      kid := "ka"
      product_page := "pA"
      holdings_file := "ha" })]

/-- Witness for the C3 theorem at a concrete one-record snapshot, with a
prior snapshot present at the path. -/
theorem catalog_store_round_trip_witness :
    read_products_json (write_products_json (encodeSnapshot rtSnapshot)
      (some Json.null)) = some (encodeSnapshot rtSnapshot) ∧
    decodeSnapshot (encodeSnapshot rtSnapshot) = some rtSnapshot ∧
    write_products_json (encodeSnapshot rtSnapshot) (some Json.null) =
      write_products_json (encodeSnapshot rtSnapshot) none :=
  catalog_store_round_trip rtSnapshot (some Json.null) none
    (by simp [rtSnapshot, dictKeys_cons, dictKeys_nil])

/-!
## Behaviour of the direct-transfer acquisition loop
-/

theorem ishares_dl_files_mono (http : String → Nat × String)
    (products : List (String × FinalRecord)) (k : String) :
    ∀ st : List LogEvent × List (String × String), k ∈ dictKeys st.2 →
      k ∈ dictKeys (ishares_download_product_files http products st).2 := by
  induction products with
  | nil => exact fun st h => h
  | cons x rest ih =>
    intro st h
    rw [ishares_download_product_files, List.foldl_cons]
    apply ih
    simp only [download_file_with_request]
    by_cases h200 : (http x.2.holdings_file).1 = 200
    · simp only [if_pos h200]
      exact (mem_dictKeys_dictInsert _ _ _ _).2 (Or.inr h)
    · simp only [if_neg h200]
      exact h

theorem ishares_dl_logs_mono (http : String → Nat × String)
    (products : List (String × FinalRecord)) (ev : LogEvent) :
    ∀ st : List LogEvent × List (String × String), ev ∈ st.1 →
      ev ∈ (ishares_download_product_files http products st).1 := by
  induction products with
  | nil => exact fun st h => h
  | cons x rest ih =>
    intro st h
    rw [ishares_download_product_files, List.foldl_cons]
    apply ih
    simp only [download_file_with_request]
    by_cases h200 : (http x.2.holdings_file).1 = 200
    · simp only [if_pos h200]
      exact List.mem_append_left _ h
    · simp only [if_neg h200]
      exact List.mem_append_left _ (List.mem_append_left _ h)

theorem ishares_dl_acquires (http : String → Nat × String)
    (products : List (String × FinalRecord)) (e : String × FinalRecord)
    (h200 : (http e.2.holdings_file).1 = 200) :
    ∀ st : List LogEvent × List (String × String), e ∈ products →
      (e.1 ++ "." ++ file_extension_of e.2.holdings_file) ∈
        dictKeys (ishares_download_product_files http products st).2 := by
  induction products with
  | nil => exact fun st he => absurd he (List.not_mem_nil e)
  | cons x rest ih =>
    intro st he
    rw [ishares_download_product_files, List.foldl_cons]
    rcases List.mem_cons.1 he with rfl | he2
    · apply ishares_dl_files_mono
      simp only [download_file_with_request, if_pos h200]
      exact (mem_dictKeys_dictInsert _ _ _ _).2 (Or.inl rfl)
    · exact ih _ he2

theorem ishares_dl_files_provenance (http : String → Nat × String)
    (products : List (String × FinalRecord)) (k : String) :
    ∀ st : List LogEvent × List (String × String),
      k ∈ dictKeys (ishares_download_product_files http products st).2 →
      k ∈ dictKeys st.2 ∨
        ∃ e ∈ products,
          k = e.1 ++ "." ++ file_extension_of e.2.holdings_file := by
  induction products with
  | nil => exact fun st h => Or.inl h
  | cons x rest ih =>
    intro st h
    rw [ishares_download_product_files, List.foldl_cons] at h
    rcases ih _ h with hmem | ⟨e, he, hk⟩
    · simp only [download_file_with_request] at hmem
      by_cases h200 : (http x.2.holdings_file).1 = 200
      · simp only [if_pos h200] at hmem
        rcases (mem_dictKeys_dictInsert _ _ _ _).1 hmem with hk | hst
        · exact Or.inr ⟨x, List.mem_cons_self x rest, hk⟩
        · exact Or.inl hst
      · simp only [if_neg h200] at hmem
        exact Or.inl hmem
    · exact Or.inr ⟨e, List.mem_cons_of_mem x he, hk⟩

theorem ishares_dl_error_logged (http : String → Nat × String)
    (products : List (String × FinalRecord)) (e : String × FinalRecord)
    (hbad : (http e.2.holdings_file).1 ≠ 200) :
    ∀ st : List LogEvent × List (String × String), e ∈ products →
      LogEvent.error
          ("Failed to download file: " ++ natStr (http e.2.holdings_file).1) ∈
        (ishares_download_product_files http products st).1 := by
  induction products with
  | nil => exact fun st he => absurd he (List.not_mem_nil e)
  | cons x rest ih =>
    intro st he
    rw [ishares_download_product_files, List.foldl_cons]
    rcases List.mem_cons.1 he with rfl | he2
    · apply ishares_dl_logs_mono
      simp only [download_file_with_request, if_neg hbad]
      exact List.mem_append_right _ (List.mem_singleton.2 rfl)
    · exact ih _ he2

/-- C5: every file acquired by the direct-transfer loop is named
`{natural identifier}.{extension}` with the extension taken from the URL's
`fileType` query parameter when one (with a non-empty value) is present and
`csv` otherwise: every record whose GET succeeds yields a file of exactly
that name, and every file the loop adds obeys the naming contract for some
record of the catalog. -/
theorem direct_transfer_file_naming (http : String → Nat × String)
    (products : List (String × FinalRecord))
    (st : List LogEvent × List (String × String)) :
    (∀ e ∈ products, (http e.2.holdings_file).1 = 200 →
      (e.1 ++ "." ++ file_extension_of e.2.holdings_file) ∈
        dictKeys (ishares_download_product_files http products st).2) ∧
    (∀ k ∈ dictKeys (ishares_download_product_files http products st).2,
      k ∈ dictKeys st.2 ∨
        ∃ e ∈ products,
          k = e.1 ++ "." ++ file_extension_of e.2.holdings_file) :=
  ⟨fun e he h200 => ishares_dl_acquires http products e h200 st he,
   fun k hk => ishares_dl_files_provenance http products k st hk⟩

/-- The C5 witness record: identifier `IE00ABC`, holdings URL carrying
`fileType=csv`. -/
def c5Record : FinalRecord :=
  { name := "Fund C"
    fund_type := none
    currency := "EUR"
    ter := "0.07%"
    price := "5.00"
    date := "01/01/2026"
    factsheet := "fc"
    kid := "kc"
    product_page := "pC"
    holdings_file :=
      "https://www.ishares.com/it/prodotti/fund/1?fileType=csv&fileName=F&dataType=fund" }

/-- Witness for the C5 theorem: identifier `IE00ABC` with a URL containing
`fileType=csv` yields the file `IE00ABC.csv`. -/
theorem direct_transfer_file_naming_witness :
    "IE00ABC.csv" ∈
      dictKeys (ishares_download_product_files (fun _ => (200, "body"))
        [("IE00ABC", c5Record)] ([], [])).2 :=
  (direct_transfer_file_naming (fun _ => (200, "body"))
      [("IE00ABC", c5Record)] ([], [])).1
    ("IE00ABC", c5Record) (List.mem_cons_self _ _) rfl

/-!
## Behaviour of the UI-triggered acquisition loop (Vanguard)
-/

theorem download_single_unknown_type (buttonOf : String → Bool)
    (downloadOf : String → Option (String × Nat))
    (product_type isin page : String) (st : VanguardSt)
    (h1 : product_type ≠ "equity") (h2 : product_type ≠ "bond")
    (h3 : product_type ≠ "multi_asset") :
    download_single_product_holdings buttonOf downloadOf product_type isin
        page st =
      (Except.error Exn.valueError,
       { st with logs := st.logs ++
          [LogEvent.info ("Downloading the holdings file from " ++ page),
           LogEvent.info ("Opening web page: " ++ page),
           LogEvent.error ("Unknown product type: " ++ product_type)] }) := by
  rw [download_single_product_holdings]
  · simp [List.append_assoc]
  · exact h1
  · exact h2
  · exact h3

theorem vanguard_download_all_append (buttonOf : String → Bool)
    (downloadOf : String → Option (String × Nat))
    (l1 l2 : List (String × List (String × VRecord))) (st : VanguardSt) :
    vanguard_download_all buttonOf downloadOf (l1 ++ l2) st =
      match vanguard_download_all buttonOf downloadOf l1 st with
      | (Except.ok _, st2) => vanguard_download_all buttonOf downloadOf l2 st2
      | (Except.error e, st2) => (Except.error e, st2) := by
  induction l1 generalizing st with
  | nil => rw [List.nil_append, vanguard_download_all]
  | cons x rest ih =>
    obtain ⟨ptype, prods⟩ := x
    rw [List.cons_append, vanguard_download_all, vanguard_download_all]
    cases hp : vanguard_download_partition buttonOf downloadOf ptype prods st
      with
    | mk r st2 =>
      cases r with
      | ok u => exact ih st2
      | error e => rfl

/-- C4: fatal vs. recoverable acquisition failures.  (i) An unknown
asset-class partition makes `_download_single_product_holdings` raise
`ValueError` without touching the download directory.  (ii) In the Vanguard
acquisition loop, a non-empty partition of unknown kind reached after the
earlier partitions succeeded aborts with `ValueError` in a state that does
not depend on the remaining partitions or records — they are never visited.
(iii) In the iShares direct-transfer loop a non-success HTTP status never
aborts: every record whose GET returns 200 is acquired whatever the other
records' statuses, and (iv) a record with a non-200 status merely logs a
transfer error. -/
theorem fatal_partition_vs_recoverable_http :
    (∀ (buttonOf : String → Bool)
       (downloadOf : String → Option (String × Nat))
       (product_type isin page : String) (st : VanguardSt),
      product_type ≠ "equity" → product_type ≠ "bond" →
      product_type ≠ "multi_asset" →
      download_single_product_holdings buttonOf downloadOf product_type isin
          page st =
        (Except.error Exn.valueError,
         { st with logs := st.logs ++
            [LogEvent.info ("Downloading the holdings file from " ++ page),
             LogEvent.info ("Opening web page: " ++ page),
             LogEvent.error ("Unknown product type: " ++ product_type)] })) ∧
    (∀ (buttonOf : String → Bool)
       (downloadOf : String → Option (String × Nat))
       (ps1 ps2 : List (String × List (String × VRecord)))
       (bad isin0 : String) (p0 : VRecord) (prods : List (String × VRecord))
       (st : VanguardSt),
      bad ≠ "equity" → bad ≠ "bond" → bad ≠ "multi_asset" →
      (vanguard_download_all buttonOf downloadOf ps1 st).1 = Except.ok () →
      vanguard_download_all buttonOf downloadOf
          (ps1 ++ (bad, (isin0, p0) :: prods) :: ps2) st =
        (Except.error Exn.valueError,
         { (vanguard_download_all buttonOf downloadOf ps1 st).2 with
            logs := (vanguard_download_all buttonOf downloadOf ps1 st).2.logs ++
              [LogEvent.info
                ("Downloading the holdings file from " ++ p0.product_page),
               LogEvent.info ("Opening web page: " ++ p0.product_page),
               LogEvent.error ("Unknown product type: " ++ bad)] })) ∧
    (∀ (http : String → Nat × String)
       (products : List (String × FinalRecord))
       (st : List LogEvent × List (String × String)),
      ∀ e ∈ products, (http e.2.holdings_file).1 = 200 →
        (e.1 ++ "." ++ file_extension_of e.2.holdings_file) ∈
          dictKeys (ishares_download_product_files http products st).2) ∧
    (∀ (http : String → Nat × String)
       (products : List (String × FinalRecord))
       (st : List LogEvent × List (String × String)),
      ∀ e ∈ products, (http e.2.holdings_file).1 ≠ 200 →
        LogEvent.error
            ("Failed to download file: " ++
             natStr (http e.2.holdings_file).1) ∈
          (ishares_download_product_files http products st).1) := by
  refine ⟨?_, ?_, ?_, ?_⟩
  · intro buttonOf downloadOf product_type isin page st h1 h2 h3
    exact download_single_unknown_type buttonOf downloadOf product_type isin
      page st h1 h2 h3
  · intro buttonOf downloadOf ps1 ps2 bad isin0 p0 prods st h1 h2 h3 hok
    rw [vanguard_download_all_append]
    cases hr : vanguard_download_all buttonOf downloadOf ps1 st with
    | mk r1 st1 =>
      rw [hr] at hok
      dsimp only at hok
      subst hok
      dsimp only
      rw [vanguard_download_all, vanguard_download_partition,
        download_single_unknown_type buttonOf downloadOf bad isin0
          p0.product_page st1 h1 h2 h3]
  · intro http products st e he h200
    exact ishares_dl_acquires http products e h200 st he
  · intro http products st e he hbad
    exact ishares_dl_error_logged http products e hbad st he

/-- A concrete Vanguard record for the C4 witness. -/
def c4VRec : VRecord :=
  { name := "Vanguard V"
    ticker := "VV"
    currency := "EUR"
    ter := "0.10%"
    price := "10.00"
    date := "01/01/2026"
    factsheet := "fv"
    kid := "kv"
    product_page := "pV" }

/-- Concrete iShares records for the C4 witness: the first GET fails (404),
the second succeeds (200). -/
def c4RecA : FinalRecord :=
  { name := "Fund A"
    fund_type := none
    currency := "EUR"
    ter := "0.10%"
    price := "10.00"
    date := "01/01/2026"
    factsheet := "fa"
    kid := "ka"
    product_page := "pA"
    holdings_file := "uA" }

/-- See `c4RecA`. -/
def c4RecB : FinalRecord :=
  { name := "Fund B"
    fund_type := none
    currency := "USD"
    ter := "0.30%"
    price := "20.00"
    date := "02/01/2026"
    factsheet := "fb"
    kid := "kb"
    product_page := "pB"
    holdings_file := "uB" }

/-- The C4 witness HTTP oracle: 200 for `uB`, 404 for everything else. -/
def c4Http : String → Nat × String :=
  fun u => if u = "uB" then (200, "bodyB") else (404, "not found")

/-- Witness for the C4 theorem at concrete inputs: an unknown partition
(`"crypto"`) raises `ValueError` and halts the loop before later partitions;
a 404 for the first iShares record is only logged while the second record is
still acquired. -/
theorem fatal_partition_vs_recoverable_http_witness :
    (download_single_product_holdings (fun _ => true) (fun _ => none) "crypto"
        "V0" "pV" { logs := [], fs := none, dir := [] } =
      (Except.error Exn.valueError,
       { logs :=
          [LogEvent.info ("Downloading the holdings file from " ++ "pV"),
           LogEvent.info ("Opening web page: " ++ "pV"),
           LogEvent.error ("Unknown product type: " ++ "crypto")]
         fs := none
         dir := [] })) ∧
    (vanguard_download_all (fun _ => true) (fun _ => none)
        ([("equity", [])] ++
          ("crypto", [("V1", c4VRec)]) :: [("bond", [("V2", c4VRec)])])
        { logs := [], fs := none, dir := [] } =
      (Except.error Exn.valueError,
       { (vanguard_download_all (fun _ => true) (fun _ => none)
            [("equity", [])] { logs := [], fs := none, dir := [] }).2 with
          logs := (vanguard_download_all (fun _ => true) (fun _ => none)
            [("equity", [])] { logs := [], fs := none, dir := [] }).2.logs ++
            [LogEvent.info
              ("Downloading the holdings file from " ++ c4VRec.product_page),
             LogEvent.info ("Opening web page: " ++ c4VRec.product_page),
             LogEvent.error ("Unknown product type: " ++ "crypto")] })) ∧
    ("I2" ++ "." ++ file_extension_of c4RecB.holdings_file) ∈
      dictKeys (ishares_download_product_files c4Http
        [("I1", c4RecA), ("I2", c4RecB)] ([], [])).2 ∧
    LogEvent.error
        ("Failed to download file: " ++ natStr (c4Http c4RecA.holdings_file).1) ∈
      (ishares_download_product_files c4Http
        [("I1", c4RecA), ("I2", c4RecB)] ([], [])).1 :=
  ⟨fatal_partition_vs_recoverable_http.1 (fun _ => true) (fun _ => none)
      "crypto" "V0" "pV" { logs := [], fs := none, dir := [] }
      (by decide) (by decide) (by decide),
   fatal_partition_vs_recoverable_http.2.1 (fun _ => true) (fun _ => none)
      [("equity", [])] [("bond", [("V2", c4VRec)])] "crypto" "V1" c4VRec []
      { logs := [], fs := none, dir := [] }
      (by decide) (by decide) (by decide) rfl,
   fatal_partition_vs_recoverable_http.2.2.1 c4Http
      [("I1", c4RecA), ("I2", c4RecB)] ([], []) ("I2", c4RecB)
      (List.mem_cons_of_mem _ (List.mem_cons_self _ _)) rfl,
   fatal_partition_vs_recoverable_http.2.2.2 c4Http
      [("I1", c4RecA), ("I2", c4RecB)] ([], []) ("I1", c4RecA)
      (List.mem_cons_self _ _) (by decide)⟩

/-!
## Behaviour of the iShares catalog extractor
-/

theorem snd_mem_of_mem_enumFrom {l : List α} {p : Nat × α} :
    ∀ {n : Nat}, p ∈ List.enumFrom n l → p.2 ∈ l := by
  induction l with
  | nil =>
    intro n h
    cases h
  | cons x rest ih =>
    intro n h
    rw [List.enumFrom_cons] at h
    rcases List.mem_cons.1 h with rfl | h2
    · exact List.mem_cons_self _ _
    · exact List.mem_cons_of_mem _ (ih h2)

theorem cycle_go_spec (trows : List ISharesRow) :
    ∀ (i : Nat) (results : List (String × IntermediateRecord)),
      (∀ j, i ≤ j → dummyKey j ∉ dictKeys results) →
      cycle_trough_tbody_go trows i results =
        results ++
          (List.enumFrom i (trows.filter (fun r => r.fund_type == "ETF"))).map
            (fun p => (dummyKey p.1, intermediateOfRow p.2)) := by
  induction trows with
  | nil =>
    intro i results h
    simp [cycle_trough_tbody_go]
  | cons row rest ih =>
    intro i results h
    rw [cycle_trough_tbody_go]
    by_cases hrow : row.fund_type = "ETF"
    · rw [if_neg (not_not_intro hrow)]
      have hfresh : dummyKey i ∉ dictKeys results := h i (Nat.le_refl i)
      rw [dictInsert_eq_append _ _ _ hfresh]
      have hnext : ∀ j, i + 1 ≤ j →
          dummyKey j ∉ dictKeys (results ++ [(dummyKey i, intermediateOfRow row)]) := by
        intro j hj hmem
        rw [dictKeys_append, dictKeys_cons, dictKeys_nil,
          List.mem_append] at hmem
        rcases hmem with hmem | hmem
        · exact h j (Nat.le_of_succ_le hj) hmem
        · rw [List.mem_singleton] at hmem
          have := dummyKey_injective hmem
          omega
      rw [ih (i + 1) _ hnext,
        List.filter_cons_of_pos (by simp [hrow]),
        List.enumFrom_cons]
      simp [List.append_assoc]
    · rw [if_pos hrow]
      rw [ih i results h, List.filter_cons_of_neg (by simp [hrow])]

/-- C6: the Catalog Extractor emits no provisional record for a row failing
the type-admission predicate: the output is exactly the admitted rows (type
column `"ETF"`) enumerated in iteration order under the surrogate keys
`dummy_key_0`, `dummy_key_1`, ... — so a `"Fund"` row is absent and every
emitted record stems from an admitted row. -/
theorem extractor_admission_filter (trows : List ISharesRow) :
    cycle_trough_tbody trows =
      (List.enumFrom 0 (trows.filter (fun r => r.fund_type == "ETF"))).map
        (fun p => (dummyKey p.1, intermediateOfRow p.2)) ∧
    ∀ entry ∈ cycle_trough_tbody trows,
      ∃ row ∈ trows, row.fund_type = "ETF" ∧
        entry.2 = intermediateOfRow row := by
  have h1 : cycle_trough_tbody trows =
      (List.enumFrom 0 (trows.filter (fun r => r.fund_type == "ETF"))).map
        (fun p => (dummyKey p.1, intermediateOfRow p.2)) := by
    have h := cycle_go_spec trows 0 []
      (fun j _ hmem => by rw [dictKeys_nil] at hmem; cases hmem)
    simpa [cycle_trough_tbody] using h
  refine ⟨h1, ?_⟩
  intro entry he
  rw [h1] at he
  rcases List.mem_map.1 he with ⟨p, hp, rfl⟩
  have hrow := snd_mem_of_mem_enumFrom hp
  rcases List.mem_filter.1 hrow with ⟨hmem, hpred⟩
  exact ⟨p.2, hmem, by simpa using hpred, rfl⟩

/-- A concrete admitted listing row for the C6 witness. -/
def c6EtfRow : ISharesRow :=
  { fund_type := "ETF"
    th_text := "Fund E"
    href := "pE"
    currency := "EUR"
    hedged := "No"
    acc_distr := "Acc"
    ter := "0.10%"
    date := "01/01/2026" }

/-- A concrete rejected listing row (type column `"Fund"`) for the C6
witness. -/
def c6FundRow : ISharesRow :=
  { fund_type := "Fund"
    th_text := "Fund F"
    href := "pF"
    currency := "USD"
    hedged := "No"
    acc_distr := "Dist"
    ter := "0.30%"
    date := "02/01/2026" }

/-- Witness for the C6 theorem at a concrete table: the `"Fund"` row is
absent and the single admitted row gets surrogate key `dummy_key_0`. -/
theorem extractor_admission_filter_witness :
    cycle_trough_tbody [c6FundRow, c6EtfRow] =
      (List.enumFrom 0
        ([c6FundRow, c6EtfRow].filter (fun r => r.fund_type == "ETF"))).map
        (fun p => (dummyKey p.1, intermediateOfRow p.2)) ∧
    ∃ row ∈ [c6FundRow, c6EtfRow], row.fund_type = "ETF" ∧
      (dummyKey 0, intermediateOfRow c6EtfRow).2 = intermediateOfRow row :=
  ⟨(extractor_admission_filter [c6FundRow, c6EtfRow]).1,
   (extractor_admission_filter [c6FundRow, c6EtfRow]).2
     (dummyKey 0, intermediateOfRow c6EtfRow)
     (List.mem_cons_self _ _)⟩

/-!
## Session lifecycle and the missing `_save_products_json`
-/

/-- The C9 counterexample world: every banner button clickable, every table
body present and empty — nothing external fails. -/
def leakWorld : VanguardWorld :=
  { cookieBtn := true
    professionalBtn := true
    tbodyEquity := some []
    tbodyBond := some []
    tbodyMulti := some []
    buttonOf := fun _ => true
    downloadOf := fun _ => none }

/-- C9 counterexample: a Vanguard run in a fully cooperative environment
raises (`AttributeError` from the missing `_save_products_json`) and
terminates WITHOUT invoking `scraper.quit()` — `main` has no `try`/`finally`,
so the browser session is not released on this raising path. -/
theorem vanguard_run_leaks_browser_session :
    (vanguard_main leakWorld).1 = Except.error Exn.attributeError ∧
    (vanguard_main leakWorld).2.1 = false := ⟨rfl, rfl⟩

/-- C9 amended: the browser session is released exactly on the fully
successful paths: `scraper.quit()` is invoked iff every pipeline step before
it completed without raising; on every raising path the run terminates with
the session still held. -/
theorem quit_invoked_iff_run_ok :
    (∀ w : IsharesWorld,
      (ishares_main w).2.1 = true ↔ (ishares_main w).1 = Except.ok ()) ∧
    (∀ w : VanguardWorld,
      (vanguard_main w).2.1 = true ↔ (vanguard_main w).1 = Except.ok ()) := by
  constructor
  · intro w
    simp only [ishares_main]
    generalize ishares_handle_initial_banners w
      [LogEvent.info "Opening web page: https://www.ishares.com/it/investitore-privato/it/prodotti/etf-investments"] = rb
    obtain ⟨r1, logs1⟩ := rb
    cases r1 with
    | error e => simp
    | ok u =>
      dsimp only
      generalize click_button_by_xpath w.viewAllBtn "View all" = rv
      obtain ⟨vlogs, r2⟩ := rv
      cases r2 with
      | error e => simp
      | ok u2 =>
        dsimp only
        generalize ishares_get_products_json w.tbody w.pages
          { logs := logs1 ++ vlogs, fs := none, files := [] } = rg
        obtain ⟨r3, st2⟩ := rg
        cases r3 with
        | error e => simp
        | ok products => simp
  · intro w
    simp only [vanguard_main]
    generalize vanguard_handle_initial_banners w
      [LogEvent.info "Opening web page: https://www.it.vanguard/professional/prodotti?tipo-di-prodotto=etf"] = rb
    obtain ⟨r1, logs1⟩ := rb
    cases r1 with
    | error e => simp
    | ok u =>
      dsimp only
      generalize vanguard_get_products_json w.tbodyEquity w.tbodyBond
        w.tbodyMulti { logs := logs1, fs := none, dir := [] } = rg
      obtain ⟨r2, st2⟩ := rg
      cases r2 with
      | error e => simp
      | ok products =>
        dsimp only
        generalize vanguard_download_product_files w.buttonOf w.downloadOf
          products st2 = rd
        obtain ⟨r3, st3⟩ := rd
        cases r3 with
        | error e => simp
        | ok u2 => simp

/-- Witness for the amended C9 theorem at a concrete world. -/
theorem quit_invoked_iff_run_ok_witness :
    (vanguard_main leakWorld).2.1 = true ↔
      (vanguard_main leakWorld).1 = Except.ok () :=
  quit_invoked_iff_run_ok.2 leakWorld

/-- C10: `self._save_products_json` resolves against neither
`VanguardScraper` nor `BaseScraper` (which defines `_write_products_json`
instead), so (i) attribute resolution fails; (ii) `get_products_json` never
persists the snapshot file and never returns successfully — and raises
exactly `AttributeError` whenever the three table bodies render; (iii)
`download_product_files` raises `AttributeError` immediately, for every
input, leaving the whole state (snapshot file, download directory, log)
untouched — no file is acquired. -/
theorem vanguard_save_products_json_missing :
    vanguardHasMethod "_save_products_json" = false ∧
    (∀ (tE tB tM : Option (List VanguardRow)) (st : VanguardSt),
      (vanguard_get_products_json tE tB tM st).2.fs = st.fs ∧
      ∀ r, (vanguard_get_products_json tE tB tM st).1 ≠ Except.ok r) ∧
    (∀ (tE tB tM : Option (List VanguardRow)) (st : VanguardSt),
      tE.isSome = true → tB.isSome = true → tM.isSome = true →
      (vanguard_get_products_json tE tB tM st).1 =
        Except.error Exn.attributeError) ∧
    (∀ (buttonOf : String → Bool)
       (downloadOf : String → Option (String × Nat))
       (products : List (String × List (String × VRecord)))
       (st : VanguardSt),
      vanguard_download_product_files buttonOf downloadOf products st =
        (Except.error Exn.attributeError, st)) := by
  have hm : vanguardHasMethod "_save_products_json" = false := rfl
  refine ⟨hm, ?_, ?_, ?_⟩
  · intro tE tB tM st
    cases tE <;> cases tB <;> cases tM <;>
      simp [vanguard_get_products_json, get_located_element, after_wait,
        wait_until_presence, hm]
  · intro tE tB tM st hE hB hM
    cases tE with
    | none => cases hE
    | some rowsE =>
      cases tB with
      | none => cases hB
      | some rowsB =>
        cases tM with
        | none => cases hM
        | some rowsM =>
          simp [vanguard_get_products_json, get_located_element, after_wait,
            wait_until_presence, hm]
  · intro buttonOf downloadOf products st
    rw [vanguard_download_product_files, hm]
    simp

/-- Witness for the C10 theorem at concrete inputs. -/
theorem vanguard_save_products_json_missing_witness :
    (vanguard_get_products_json (some []) (some []) (some [])
        { logs := [], fs := none, dir := [] }).1 =
      Except.error Exn.attributeError ∧
    vanguard_download_product_files (fun _ => true) (fun _ => none) []
        { logs := [], fs := none, dir := [] } =
      (Except.error Exn.attributeError,
       { logs := [], fs := none, dir := [] }) :=
  ⟨vanguard_save_products_json_missing.2.2.1 (some []) (some []) (some [])
      { logs := [], fs := none, dir := [] } rfl rfl rfl,
   vanguard_save_products_json_missing.2.2.2 (fun _ => true) (fun _ => none)
      [] { logs := [], fs := none, dir := [] }⟩

end Crocus
